import Mathlib

set_option maxRecDepth 4000

/-!
Shallow embedding of the ScriptSpinner backend (src/backend/main.py).

The backend exposes three operations (generate_script, generate_variation,
get_suggestions).  Each resolves a completion client, builds a prompt,
invokes the provider, and falls back to deterministic mock content when no
client is available or the remote call raises.  Pure Python string and list
operations are translated to Lean functions; the remote chat-completion
call, which is the only effectful step, is passed in explicitly as a
function from (client, model, prompt) to a success-or-exception outcome.
-/

namespace ScriptSpinner

/-- Python `str.lower()` restricted to the ASCII range, which covers every
character the matcher compares against (all category names and keywords in
the source are lowercase ASCII). -/
def pyLower (s : String) : String := String.mk (s.toList.map Char.toLower)

/-- Occurrence of `needle` as a contiguous sublist of the haystack; this is
Python `needle in haystack` on strings, on the character-list level. -/
def occursIn (needle : List Char) : List Char → Bool
  | [] => needle.isEmpty
  | c :: rest => needle.isPrefixOf (c :: rest) || occursIn needle rest

/-- Python substring test `needle in haystack`. -/
def strContains (haystack needle : String) : Bool :=
  occursIn needle.toList haystack.toList

/-- Python list slicing `xs[:n]` for an `int` bound `n`: a nonnegative bound
takes the first `n` elements, a negative bound drops `-n` elements from the
end (clamped at the empty list). -/
def pyTake (n : Int) (xs : List α) : List α :=
  if 0 ≤ n then xs.take n.toNat else xs.take (xs.length - (-n).toNat)

/-- Request body of POST /generate-script (pydantic model ScriptRequest). -/
structure ScriptRequest where
  topic : String
  refined_topic : String
  hook : String
  style : String
  provider : String := "openai"
  api_key : String := ""
  model : String := "gpt-4"
deriving DecidableEq, Repr

/-- Request body of POST /generate-variation (pydantic model VariationRequest). -/
structure VariationRequest where
  original_script : String
  variation_type : String
  provider : String := "openai"
  api_key : String := ""
  model : String := "gpt-4"
deriving DecidableEq, Repr

/-- Request body of POST /get-suggestions (pydantic model SuggestionRequest). -/
structure SuggestionRequest where
  query : String
  limit : Int := 6
  provider : String := "openai"
  api_key : String := ""
  model : String := "gpt-4"
deriving DecidableEq, Repr

/-- Response of the two script-producing endpoints (pydantic ScriptResponse). -/
structure ScriptResponse where
  script : String
  success : Bool
  message : String := ""
deriving DecidableEq, Repr

/-- Response of POST /get-suggestions (pydantic SuggestionResponse). -/
structure SuggestionResponse where
  suggestions : List String
  success : Bool
deriving DecidableEq, Repr

/-- An OpenAI-SDK client value as constructed by the source: an API key plus
an optional base URL (set only for the OpenRouter-compatible endpoint).
Constructing a client performs no network call. -/
structure OpenAIClient where
  api_key : String
  base_url : Option String := none
deriving DecidableEq, Repr

/-- `get_ai_client(provider, api_key)`: empty key yields None; "openai" and
"openrouter" yield clients; the placeholder branches for "anthropic" and
"google" and the final else all yield None. -/
def get_ai_client (provider : String) (api_key : String) : Option OpenAIClient :=
  if api_key = "" then none
  else if provider = "openai" then some { api_key := api_key }
  else if provider = "openrouter" then
    some { api_key := api_key, base_url := some "https://openrouter.ai/api/v1" }
  else if provider = "anthropic" then none
  else if provider = "google" then none
  else none

/-- Outcome of the single remote chat-completion call: the returned message
content on success, or the exception text when the call raises. -/
inductive RemoteResult where
  | ok (text : String)
  | err (msg : String)
deriving DecidableEq, Repr

/-- The remote completion call, abstracted: client, model name and prompt in,
outcome out.  The orchestrators are parametrised over it. -/
abbrev RemoteCall := OpenAIClient → String → String → RemoteResult

/-- Fixed text of the script prompt template before the topic hole. -/
def script_template_pre : String :=
  "You are an expert scriptwriter for short-form video content. Create a compelling 60-second video script for a beginner audience.\n\nREQUIREMENTS:\n- Topic: "

/-- Fixed text of the script prompt template between topic and hook. -/
def script_template_mid1 : String := "\n- Core Message/Hook: "

/-- Fixed text of the script prompt template between hook and style. -/
def script_template_mid2 : String := "\n- Style: "

/-- Fixed text of the script prompt template after the style hole. -/
def script_template_suf : String :=
  "\n- Call to Action: \"Follow for more tips\"\n- Target Length: 60 seconds when spoken\n- Format: Include clear hook, problem, solution, and call to action\n- Do NOT include a title\n\nSTRUCTURE:\nðŸŽ¬ HOOK: [Attention-grabbing opening]\nðŸ“ PROBLEM: [What challenge does the audience face?]\nðŸ’¡ SOLUTION: [Your practical advice/steps]\nðŸ”¥ PROOF/BENEFIT: [Why this works/social proof]\nâœ… CALL TO ACTION: Follow for more tips\n\nMake it engaging, actionable, and perfect for social media video content. Use emojis strategically to enhance readability."

/-- `build_prompt(request)`: the f-string interpolating
`request.refined_topic or request.topic` (Python `or` treats the empty
string as unset), `request.hook` and `request.style` into the template. -/
def build_prompt (request : ScriptRequest) : String :=
  script_template_pre ++
    (if request.refined_topic = "" then request.topic else request.refined_topic) ++
    script_template_mid1 ++ request.hook ++
    script_template_mid2 ++ request.style ++
    script_template_suf

/-- The `variation_instructions` dict of `build_variation_prompt`,
in declaration order. -/
def variation_instructions : List (String × String) :=
  [("shorter", "Create a shorter, more concise version (30-40 seconds when spoken). Keep the core message but make it punchier and more direct."),
   ("engaging", "Make it more engaging and entertaining. Add more personality, excitement, and social media flair. Use more emojis and interactive elements."),
   ("social", "Adapt it specifically for social media posts (Instagram, TikTok, etc.). Make it more casual, use trending language, and include relevant hashtags.")]

/-- `build_variation_prompt(original_script, variation_type)`: looks up the
instruction with default "Create a variation of this script" and interpolates
it twice around the original script. -/
def build_variation_prompt (original_script : String) (variation_type : String) : String :=
  let instruction :=
    (variation_instructions.lookup variation_type).getD "Create a variation of this script"
  "Take this video script and " ++ instruction ++
    ":\n\nORIGINAL SCRIPT:\n" ++ original_script ++
    "\n\nINSTRUCTIONS:\n- Maintain the core message and value\n- " ++ instruction ++
    "\n- Keep it authentic and valuable to coffee enthusiasts\n- Ensure it flows well for video content\n\nGenerate the new version now:"

/-- The inline f-string prompt of the get_suggestions success path. -/
def suggestion_prompt (query : String) (limit : Int) : String :=
  "Based on the user\x27s input: \"" ++ query ++ "\", generate " ++ toString limit ++
    " specific, actionable video topic suggestions that would make great 60-second videos. \n\nFocus on:\n- Practical how-to topics\n- Problem-solving content\n- Tips and tricks\n- Beginner-friendly subjects\n- Trending or popular topics in that area\n\nReturn only the suggestions, one per line, without numbers or bullets. Make them specific and engaging."

/-- A value of the `style_variations` dict in `generate_mock_script`:
an opening hook plus a tone label. -/
structure StyleInfo where
  hook : String
  tone : String
deriving DecidableEq, Repr

/-- The "Casual" entry of `style_variations`, which is also the default
returned by `style_variations.get(request.style, style_variations["Casual"])`. -/
def casual_style : StyleInfo :=
  { hook := "Hey coffee lovers! Want to know the secret to amazing home brewing?",
    tone := "friendly and approachable" }

/-- The `style_variations` dict of `generate_mock_script`, in declaration
order. -/
def style_variations : List (String × StyleInfo) :=
  [("Authoritative",
    { hook := "Think you need expensive equipment to make cafÃ©-quality coffee? Think again!",
      tone := "confident and expert" }),
   ("Humorous",
    { hook := "My wallet used to cry every time I bought coffee equipment... until I discovered this!",
      tone := "fun and relatable" }),
   ("Casual", casual_style),
   ("Formal",
    { hook := "Today I\x27ll demonstrate the three essential tools for professional-quality home brewing.",
      tone := "structured and professional" })]

/-- Fixed text of the mock script before the interpolated hook. -/
def mock_script_pre : String := "ðŸŽ¬ HOOK: \""

/-- Fixed text of the mock script after the interpolated hook: the problem,
solution, proof and call-to-action sections. -/
def mock_script_suf : String :=
  "\"\n\nðŸ“ PROBLEM: Most people believe great coffee requires a $500 espresso machine and years of training.\n\nðŸ’¡ SOLUTION: With just three essential tools, anyone can become their own coffee connoisseur:\n\n1ï¸âƒ£ A quality burr grinder ($30-50) - Controls extraction like a pro\n2ï¸âƒ£ A simple pour-over dripper ($15-25) - Gives you precision control  \n3ï¸âƒ£ A gooseneck kettle ($25-40) - Perfect water flow every time\n\nðŸ”¥ PROOF: I\x27ve been using this exact setup for 2 years, and my friends constantly ask if I went to barista school!\n\nâœ… CALL TO ACTION: Follow for more coffee tips that\x27ll save you hundreds while upgrading your morning routine!\n\nâ° Total investment: Under $100. Total game-changer: Priceless."

/-- `generate_mock_script(request)`: selects the (hook, tone) pair for the
request style, defaulting to the "Casual" pair, and interpolates only the
hook into the fixed five-section body. -/
def generate_mock_script (request : ScriptRequest) : String :=
  let style_info := (style_variations.lookup request.style).getD casual_style
  mock_script_pre ++ style_info.hook ++ mock_script_suf

/-- The "shorter" entry of the `variations` dict in
`generate_mock_variation`, also its default for unknown kinds. -/
def variation_shorter_text : String :=
  "â˜• QUICK TIP: Skip the $500 espresso machine!\n\nGet cafÃ©-quality coffee with 3 budget tools:\nâ€¢ Burr grinder ($40)\nâ€¢ Pour-over dripper ($20) \nâ€¢ Gooseneck kettle ($30)\n\nTotal: $90 vs $500+ \n\nFollow for more money-saving coffee hacks! â˜•"

/-- The "engaging" entry of the `variations` dict. -/
def variation_engaging_text : String :=
  "ðŸš¨ COFFEE LOVERS: This will blow your mind!\n\nI spent YEARS thinking I needed expensive gear for good coffee... I was SO wrong!\n\nHere\x27s the secret baristas don\x27t want you to know:\n\nâœ¨ $40 burr grinder beats any blade grinder\nâœ¨ $20 pour-over > $200 automatic machine\nâœ¨ $30 gooseneck kettle = perfect extraction\n\nMy friends think I\x27m a coffee wizard now! ðŸ§™â€â™‚ï¸\n\nDrop a â˜• if you\x27re ready to upgrade your morning game!\n\nFollow @coffeehacks for daily brewing secrets!"

/-- The "social" entry of the `variations` dict. -/
def variation_social_text : String :=
  "POV: You just made better coffee than Starbucks with $90 worth of equipment ðŸ˜Ž\n\nThe secret? These 3 game-changing tools:\nâ†’ Burr grinder\nâ†’ Pour-over dripper  \nâ†’ Gooseneck kettle\n\nWho else is tired of overpriced coffee shops? \n\n#CoffeeHacks #HomeBrewing #CoffeeLovers #MorningRoutine #BaristaLife"

/-- The `variations` dict of `generate_mock_variation`, in declaration order. -/
def variations_table : List (String × String) :=
  [("shorter", variation_shorter_text),
   ("engaging", variation_engaging_text),
   ("social", variation_social_text)]

/-- `generate_mock_variation(variation_type)`:
`variations.get(variation_type, variations["shorter"])`. -/
def generate_mock_variation (variation_type : String) : String :=
  (variations_table.lookup variation_type).getD variation_shorter_text

/-- The "cooking" list of `suggestions_db`. -/
def cooking_suggestions : List String :=
  ["5-minute breakfast recipes for busy mornings",
   "How to meal prep like a pro",
   "Kitchen hacks that save time and money",
   "Cooking mistakes everyone makes",
   "Essential spices every kitchen needs",
   "One-pot meals for easy cleanup"]

/-- The "fitness" list of `suggestions_db`. -/
def fitness_suggestions : List String :=
  ["10-minute morning workout routine",
   "How to stay motivated to exercise",
   "Bodyweight exercises for small spaces",
   "Stretches to do at your desk",
   "Building healthy habits that stick",
   "Pre and post-workout nutrition tips"]

/-- The "productivity" list of `suggestions_db`. -/
def productivity_suggestions : List String :=
  ["Time management techniques that actually work",
   "How to organize your workspace for focus",
   "Digital detox strategies for better focus",
   "Morning routines of successful people",
   "Beating procrastination once and for all",
   "Tools to automate your daily tasks"]

/-- The "technology" list of `suggestions_db`. -/
def technology_suggestions : List String :=
  ["Essential phone apps everyone should have",
   "How to protect your privacy online",
   "Tech shortcuts to save time daily",
   "Setting up the perfect home office",
   "Troubleshooting common tech problems",
   "Future tech trends to watch"]

/-- The "business" list of `suggestions_db`. -/
def business_suggestions : List String :=
  ["Starting a side hustle with no money",
   "Networking tips for introverts",
   "How to negotiate your salary",
   "Building a personal brand online",
   "Time management for entrepreneurs",
   "Common business mistakes to avoid"]

/-- The "lifestyle" list of `suggestions_db`. -/
def lifestyle_suggestions : List String :=
  ["Minimalism tips for beginners",
   "How to develop a reading habit",
   "Creating a budget that works",
   "Self-care routines for busy people",
   "Organizing your home in 30 minutes",
   "Building confidence in social situations"]

/-- The `suggestions_db` dict of `generate_fallback_suggestions`, in
declaration order. -/
def suggestions_db : List (String × List String) :=
  [("cooking", cooking_suggestions),
   ("fitness", fitness_suggestions),
   ("productivity", productivity_suggestions),
   ("technology", technology_suggestions),
   ("business", business_suggestions),
   ("lifestyle", lifestyle_suggestions)]

/-- The `general_suggestions` list used when no category matches. -/
def general_suggestions : List String :=
  ["How to master any skill in 30 days",
   "Life hacks that actually work",
   "Common mistakes beginners make",
   "Essential tools every beginner needs",
   "Quick tips for immediate results",
   "Secrets professionals don\x27t tell you"]

/-- The `category_keywords` dict of `generate_fallback_suggestions`. -/
def category_keywords : List (String × List String) :=
  [("cooking", ["cook", "recipe", "food", "kitchen", "meal", "eat", "chef", "bake"]),
   ("fitness", ["workout", "exercise", "fitness", "health", "gym", "run", "yoga", "diet"]),
   ("productivity", ["productive", "organize", "time", "work", "focus", "habit", "efficient"]),
   ("technology", ["tech", "computer", "phone", "app", "digital", "online", "software"]),
   ("business", ["business", "money", "career", "job", "entrepreneur", "startup", "finance"]),
   ("lifestyle", ["life", "home", "style", "personal", "self", "daily", "routine"])]

/-- The `for category, suggestions in suggestions_db.items():` loop body of
`generate_fallback_suggestions`: each iteration first tests the category
name against the lower-cased query, then that category\x27s keywords, and
returns that category\x27s truncated list on either hit; after the loop the
general list is returned truncated. -/
def fallback_loop (query_lower : String) (limit : Int) :
    List (String × List String) → List String
  | [] => pyTake limit general_suggestions
  | (category, suggestions) :: rest =>
    if strContains query_lower category then pyTake limit suggestions
    else if ((category_keywords.lookup category).getD []).any
        (fun keyword => strContains query_lower keyword) then
      pyTake limit suggestions
    else fallback_loop query_lower limit rest

/-- `generate_fallback_suggestions(query, limit=6)`. -/
def generate_fallback_suggestions (query : String) (limit : Int := 6) : List String :=
  fallback_loop (pyLower query) limit suggestions_db

/-- The handler of POST /generate-script.  `client` is the module-level
default client (None when OPENAI_API_KEY is unset); `remote` is the
chat-completion call. -/
def generate_script (request : ScriptRequest) (client : Option OpenAIClient)
    (remote : RemoteCall) : ScriptResponse :=
  match (get_ai_client request.provider request.api_key).orElse (fun _ => client) with
  | none =>
    { script := generate_mock_script request, success := true,
      message := "Generated using mock data (no API key provided)" }
  | some ai_client =>
    match remote ai_client request.model (build_prompt request) with
    | RemoteResult.ok script =>
      { script := script, success := true,
        message := "Generated using " ++ request.provider ++ "/" ++ request.model }
    | RemoteResult.err e =>
      { script := generate_mock_script request, success := true,
        message := "Using fallback generation due to: " ++ e }

/-- The handler of POST /generate-variation.  Note the source tests and uses
only the module-level `client` and `DEFAULT_MODEL`; the request\x27s provider,
api_key and model fields never reach this path. -/
def generate_variation (request : VariationRequest) (client : Option OpenAIClient)
    (DEFAULT_MODEL : String) (remote : RemoteCall) : ScriptResponse :=
  match client with
  | none =>
    { script := generate_mock_variation request.variation_type, success := true,
      message := "Generated using mock data (no OpenAI API key provided)" }
  | some c =>
    match remote c DEFAULT_MODEL
        (build_variation_prompt request.original_script request.variation_type) with
    | RemoteResult.ok script =>
      { script := script, success := true,
        message := "Variation generated using " ++ DEFAULT_MODEL }
    | RemoteResult.err e =>
      { script := generate_mock_variation request.variation_type, success := true,
        message := "Using fallback generation due to: " ++ e }

/-- The handler of POST /get-suggestions. -/
def get_suggestions (request : SuggestionRequest) (client : Option OpenAIClient)
    (remote : RemoteCall) : SuggestionResponse :=
  match (get_ai_client request.provider request.api_key).orElse (fun _ => client) with
  | none =>
    { suggestions := generate_fallback_suggestions request.query request.limit,
      success := true }
  | some ai_client =>
    match remote ai_client request.model (suggestion_prompt request.query request.limit) with
    | RemoteResult.ok text =>
      let suggestions_text := text.trim
      let parsed := (suggestions_text.splitOn "\n").filterMap
        (fun s => if s.trim = "" then none else some s.trim)
      { suggestions := pyTake request.limit parsed, success := true }
    | RemoteResult.err _ =>
      { suggestions := generate_fallback_suggestions request.query request.limit,
        success := true }

/-- One iteration test of the matcher loop: the category name, or any of
that category\x27s keywords, occurs in the lower-cased query. -/
def category_matches (query_lower : String) (p : String × List String) : Bool :=
  strContains query_lower p.1 ||
    ((category_keywords.lookup p.1).getD []).any (fun keyword => strContains query_lower keyword)

/-- The pool the matcher truncates: the list of the first category (in
declaration order) whose name or keywords match the lower-cased query, or
the general list when none matches. -/
def selected_pool (query : String) : List String :=
  ((suggestions_db.find? (category_matches (pyLower query))).map Prod.snd).getD
    general_suggestions

/-- A probe completion call reporting which client and model the
orchestrator passed to the remote endpoint. -/
def c2_probe : RemoteCall := fun c m _ => RemoteResult.ok (c.api_key ++ "|" ++ m)

/-- A variation request carrying its own non-empty credential, provider and
model. -/
def c2_req_a : VariationRequest :=
  { original_script := "s", variation_type := "shorter", provider := "openrouter",
    api_key := "sk-user", model := "gpt-3.5-turbo" }

/-- The same variation request with credential, provider and model left at
their defaults (empty credential). -/
def c2_req_b : VariationRequest :=
  { original_script := "s", variation_type := "shorter" }

theorem occursIn_nil_needle : ∀ h : List Char, occursIn [] h = true
  | [] => rfl
  | _ :: _ => by simp [occursIn, List.isPrefixOf]

theorem isPrefixOf_extend (n : List Char) :
    ∀ s t, n.isPrefixOf s = true → n.isPrefixOf (s ++ t) = true := by
  induction n with
  | nil => intro s t _; simp [List.isPrefixOf]
  | cons a as ih =>
    intro s t h
    cases s with
    | nil => simp [List.isPrefixOf] at h
    | cons b bs =>
      simp only [List.isPrefixOf, List.cons_append, Bool.and_eq_true, beq_iff_eq] at h ⊢
      exact ⟨h.1, ih bs t h.2⟩

theorem isPrefixOf_self_append (n suf : List Char) : n.isPrefixOf (n ++ suf) = true := by
  induction n with
  | nil => simp [List.isPrefixOf]
  | cons a as ih =>
    simp only [List.cons_append, List.isPrefixOf, Bool.and_eq_true, beq_iff_eq]
    simp [ih]

theorem occursIn_self_append (n suf : List Char) : occursIn n (n ++ suf) = true := by
  cases n with
  | nil => exact occursIn_nil_needle _
  | cons a as =>
    simp only [List.cons_append, occursIn, Bool.or_eq_true]
    left
    exact isPrefixOf_self_append (a :: as) suf

theorem occursIn_append_right (n s t : List Char) (h : occursIn n s = true) :
    occursIn n (s ++ t) = true := by
  induction s with
  | nil =>
    have hn : n = [] := by simpa [occursIn, List.isEmpty_iff] using h
    subst hn
    exact occursIn_nil_needle _
  | cons c cs ih =>
    simp only [occursIn, Bool.or_eq_true] at h
    simp only [List.cons_append, occursIn, Bool.or_eq_true]
    rcases h with h | h
    · left
      have := isPrefixOf_extend n (c :: cs) t h
      simpa [List.cons_append] using this
    · right
      exact ih h

theorem occursIn_append_left (n t x : List Char) (h : occursIn n t = true) :
    occursIn n (x ++ t) = true := by
  induction x with
  | nil => exact h
  | cons c cs ih =>
    simp only [List.cons_append, occursIn, Bool.or_eq_true]
    right
    exact ih

theorem strToList_append (s t : String) : (s ++ t).toList = s.toList ++ t.toList := by
  simp [String.toList, String.data_append]

theorem strContains_self (s : String) : strContains s s = true := by
  unfold strContains
  simpa using occursIn_self_append s.toList []

theorem strContains_append_left (s t n : String) (h : strContains s n = true) :
    strContains (s ++ t) n = true := by
  unfold strContains at h ⊢
  rw [strToList_append]
  exact occursIn_append_right _ _ _ h

theorem strContains_append_right (s t n : String) (h : strContains t n = true) :
    strContains (s ++ t) n = true := by
  unfold strContains at h ⊢
  rw [strToList_append]
  exact occursIn_append_left _ _ _ h

theorem fallback_loop_eq_find (ql : String) (limit : Int) :
    ∀ db : List (String × List String),
      fallback_loop ql limit db =
        pyTake limit (((db.find? (category_matches ql)).map Prod.snd).getD general_suggestions) := by
  intro db
  induction db with
  | nil => rfl
  | cons p rest ih =>
    obtain ⟨category, suggestions⟩ := p
    by_cases h1 : strContains ql category = true
    · simp [fallback_loop, List.find?, category_matches, h1]
    · by_cases h2 : (((category_keywords.lookup category).getD []).any
          (fun keyword => strContains ql keyword)) = true
      · simp [fallback_loop, List.find?, category_matches, h1, h2]
      · simp [fallback_loop, List.find?, category_matches, h1, h2, ih]

/-- C1 counterexample: the query "fitness cook" contains the category name
"fitness" as a substring, yet the matcher returns the cooking list, because
the cooking keyword "cook" is tested before the fitness name is ever
reached; a name match of a later category does not take precedence over a
keyword match of an earlier one, so the matcher is not two-pass. -/
theorem c1_name_precedence_cex :
    strContains (pyLower "fitness cook") "fitness" = true ∧
    generate_fallback_suggestions "fitness cook" 6 = cooking_suggestions ∧
    cooking_suggestions ≠ fitness_suggestions :=
  ⟨by decide, by decide, by decide⟩

/-- C1 (amended): the matcher makes a single pass over the categories in
declaration order; the first category whose name or keyword set matches the
lower-cased query supplies the result truncated to the limit, and the
general list is used when no category matches at all. -/
theorem c1_matcher_single_pass (query : String) (limit : Int) :
    generate_fallback_suggestions query limit =
      pyTake limit
        (((suggestions_db.find? (category_matches (pyLower query))).map Prod.snd).getD
          general_suggestions) :=
  fallback_loop_eq_find (pyLower query) limit suggestions_db

/-- C2 counterexample: a variation request carrying the non-empty credential
"sk-user" with provider "openrouter" and model "gpt-3.5-turbo" is served
through the process-wide default client and the default model (the probe
call reports api key "ENV-KEY" and model "gpt-4"), and the response is
identical to that of the same request with an empty credential: the
request-supplied credential, provider and model never override anything in
generate_variation. -/
theorem c2_variation_ignores_request_cex :
    (generate_variation c2_req_a (some { api_key := "ENV-KEY" }) "gpt-4" c2_probe).script
        = "ENV-KEY|gpt-4" ∧
    generate_variation c2_req_a (some { api_key := "ENV-KEY" }) "gpt-4" c2_probe =
      generate_variation c2_req_b (some { api_key := "ENV-KEY" }) "gpt-4" c2_probe ∧
    ("ENV-KEY|gpt-4" : String) ≠ "sk-user|gpt-3.5-turbo" :=
  ⟨rfl, rfl, by decide⟩

/-- C2 (amended): generate_variation ignores the request-supplied
credential, provider and model entirely: the response depends only on the
original script and the variation kind, the remote call always goes through
the process-wide default client with the default model, and the mock
variation is produced exactly when no default client is configured. -/
theorem c2_variation_uses_default_only (req req2 : VariationRequest)
    (client : Option OpenAIClient) (dm : String) (remote : RemoteCall)
    (hs : req.original_script = req2.original_script)
    (ht : req.variation_type = req2.variation_type) :
    generate_variation req client dm remote = generate_variation req2 client dm remote ∧
    (client = none →
      generate_variation req client dm remote =
        { script := generate_mock_variation req.variation_type, success := true,
          message := "Generated using mock data (no OpenAI API key provided)" }) := by
  constructor
  · unfold generate_variation
    rw [hs, ht]
  · intro hc
    subst hc
    rfl

theorem c2_variation_uses_default_only_witness :
    (c2_req_a.original_script = c2_req_b.original_script ∧
      c2_req_a.variation_type = c2_req_b.variation_type) ∧
    (generate_variation c2_req_a none "gpt-4" c2_probe =
        generate_variation c2_req_b none "gpt-4" c2_probe ∧
      ((none : Option OpenAIClient) = none →
        generate_variation c2_req_a none "gpt-4" c2_probe =
          { script := generate_mock_variation c2_req_a.variation_type, success := true,
            message := "Generated using mock data (no OpenAI API key provided)" })) :=
  ⟨⟨rfl, rfl⟩,
    c2_variation_uses_default_only c2_req_a c2_req_b none "gpt-4" c2_probe rfl rfl⟩

/-- C3: on every terminal path of the three operations (no client resolved,
remote call succeeds, remote call raises), the success field of the
response is true; provider failure is absorbed into fallback content and
never surfaced as a failure status. -/
theorem c3_always_success (sreq : ScriptRequest) (vreq : VariationRequest)
    (qreq : SuggestionRequest) (client : Option OpenAIClient) (dm : String)
    (remote : RemoteCall) :
    (generate_script sreq client remote).success = true ∧
    (generate_variation vreq client dm remote).success = true ∧
    (get_suggestions qreq client remote).success = true := by
  refine ⟨?_, ?_, ?_⟩
  · unfold generate_script
    split
    · rfl
    · split <;> rfl
  · unfold generate_variation
    split
    · rfl
    · split <;> rfl
  · unfold get_suggestions
    split
    · rfl
    · split <;> rfl

/-- C4: for every variation kind outside {shorter, engaging, social}, the
variation fallback text equals, character for character, the fixed text
returned for the "shorter" kind. -/
theorem c4_unknown_variation_defaults_to_shorter (variation_type : String)
    (h1 : variation_type ≠ "shorter") (h2 : variation_type ≠ "engaging")
    (h3 : variation_type ≠ "social") :
    generate_mock_variation variation_type = generate_mock_variation "shorter" := by
  have e1 : (variation_type == "shorter") = false := beq_eq_false_iff_ne.mpr h1
  have e2 : (variation_type == "engaging") = false := beq_eq_false_iff_ne.mpr h2
  have e3 : (variation_type == "social") = false := beq_eq_false_iff_ne.mpr h3
  simp [generate_mock_variation, variations_table, List.lookup, e1, e2, e3]

theorem c4_unknown_variation_defaults_to_shorter_witness :
    (("remix" : String) ≠ "shorter" ∧ ("remix" : String) ≠ "engaging" ∧
      ("remix" : String) ≠ "social") ∧
    generate_mock_variation "remix" = generate_mock_variation "shorter" :=
  ⟨⟨by decide, by decide, by decide⟩,
    c4_unknown_variation_defaults_to_shorter "remix" (by decide) (by decide) (by decide)⟩

/-- C5: a style outside the fixed mapping {Authoritative, Humorous, Casual,
Formal} yields exactly the mock script of the default style "Casual", and
every mock script (here an arbitrary request r) carries the five fixed
section labels: hook, problem, solution, proof and call to action. -/
theorem c5_unknown_style_defaults_to_casual (request r : ScriptRequest)
    (h1 : request.style ≠ "Authoritative") (h2 : request.style ≠ "Humorous")
    (h3 : request.style ≠ "Casual") (h4 : request.style ≠ "Formal") :
    generate_mock_script request = generate_mock_script { request with style := "Casual" } ∧
    (strContains (generate_mock_script r) "HOOK:" = true ∧
      strContains (generate_mock_script r) "PROBLEM:" = true ∧
      strContains (generate_mock_script r) "SOLUTION:" = true ∧
      strContains (generate_mock_script r) "PROOF:" = true ∧
      strContains (generate_mock_script r) "CALL TO ACTION:" = true) := by
  constructor
  · have e1 : (request.style == "Authoritative") = false := beq_eq_false_iff_ne.mpr h1
    have e2 : (request.style == "Humorous") = false := beq_eq_false_iff_ne.mpr h2
    have e3 : (request.style == "Casual") = false := beq_eq_false_iff_ne.mpr h3
    have e4 : (request.style == "Formal") = false := beq_eq_false_iff_ne.mpr h4
    simp [generate_mock_script, style_variations, List.lookup, e1, e2, e3, e4]
  · unfold generate_mock_script
    refine ⟨?_, ?_, ?_, ?_, ?_⟩
    · exact strContains_append_left _ _ _ (strContains_append_left _ _ _ (by decide))
    · exact strContains_append_right _ _ _ (by decide)
    · exact strContains_append_right _ _ _ (by decide)
    · exact strContains_append_right _ _ _ (by decide)
    · exact strContains_append_right _ _ _ (by decide)

theorem c5_unknown_style_defaults_to_casual_witness :
    (({ topic := "t", refined_topic := "", hook := "h", style := "Sassy" } : ScriptRequest).style
          ≠ "Authoritative" ∧
      ({ topic := "t", refined_topic := "", hook := "h", style := "Sassy" } : ScriptRequest).style
          ≠ "Humorous" ∧
      ({ topic := "t", refined_topic := "", hook := "h", style := "Sassy" } : ScriptRequest).style
          ≠ "Casual" ∧
      ({ topic := "t", refined_topic := "", hook := "h", style := "Sassy" } : ScriptRequest).style
          ≠ "Formal") ∧
    (generate_mock_script { topic := "t", refined_topic := "", hook := "h", style := "Sassy" } =
        generate_mock_script
          { ({ topic := "t", refined_topic := "", hook := "h", style := "Sassy" } : ScriptRequest)
            with style := "Casual" } ∧
      (strContains
            (generate_mock_script { topic := "t", refined_topic := "", hook := "h", style := "Sassy" })
            "HOOK:" = true ∧
        strContains
            (generate_mock_script { topic := "t", refined_topic := "", hook := "h", style := "Sassy" })
            "PROBLEM:" = true ∧
        strContains
            (generate_mock_script { topic := "t", refined_topic := "", hook := "h", style := "Sassy" })
            "SOLUTION:" = true ∧
        strContains
            (generate_mock_script { topic := "t", refined_topic := "", hook := "h", style := "Sassy" })
            "PROOF:" = true ∧
        strContains
            (generate_mock_script { topic := "t", refined_topic := "", hook := "h", style := "Sassy" })
            "CALL TO ACTION:" = true)) :=
  ⟨⟨by decide, by decide, by decide, by decide⟩,
    c5_unknown_style_defaults_to_casual
      { topic := "t", refined_topic := "", hook := "h", style := "Sassy" }
      { topic := "t", refined_topic := "", hook := "h", style := "Sassy" }
      (by decide) (by decide) (by decide) (by decide)⟩

/-- C6: for every query and positive limit, the fallback suggestion list is
the take-prefix of the selected pool (the matched category list, or the
general list when nothing matches), with length min(limit, pool length); in
particular a limit beyond the pool length returns the whole pool unchanged
and the result never exceeds the requested limit. -/
theorem c6_suggestion_limit_prefix (query : String) (limit : Int) (h : 0 < limit) :
    generate_fallback_suggestions query limit = (selected_pool query).take limit.toNat ∧
    (generate_fallback_suggestions query limit).length
        = min limit.toNat (selected_pool query).length ∧
    generate_fallback_suggestions query limit <+: selected_pool query := by
  have e : generate_fallback_suggestions query limit = pyTake limit (selected_pool query) :=
    fallback_loop_eq_find (pyLower query) limit suggestions_db
  have e2 : pyTake limit (selected_pool query) = (selected_pool query).take limit.toNat := by
    unfold pyTake
    rw [if_pos (le_of_lt h)]
  refine ⟨e.trans e2, ?_, ?_⟩
  · rw [e.trans e2]
    exact List.length_take _ _
  · rw [e.trans e2]
    exact List.take_prefix _ _

theorem c6_suggestion_limit_prefix_witness :
    (0 : Int) < 10 ∧
    (generate_fallback_suggestions "hello" 10 = (selected_pool "hello").take (10 : Int).toNat ∧
      (generate_fallback_suggestions "hello" 10).length
          = min (10 : Int).toNat (selected_pool "hello").length ∧
      generate_fallback_suggestions "hello" 10 <+: selected_pool "hello") :=
  ⟨by decide, c6_suggestion_limit_prefix "hello" 10 (by decide)⟩

/-- C7: the script prompt embeds the effective topic (the refined topic when
non-empty, else the raw topic), the hook and the style verbatim as
substrings of the fixed template; the builder is a total pure string
transform. -/
theorem c7_build_prompt_embeds (request : ScriptRequest) :
    strContains (build_prompt request)
        (if request.refined_topic = "" then request.topic else request.refined_topic) = true ∧
    strContains (build_prompt request) request.hook = true ∧
    strContains (build_prompt request) request.style = true := by
  unfold build_prompt
  refine ⟨?_, ?_, ?_⟩
  · exact strContains_append_left _ _ _ (strContains_append_left _ _ _
      (strContains_append_left _ _ _ (strContains_append_left _ _ _
        (strContains_append_left _ _ _ (strContains_append_right _ _ _
          (strContains_self _))))))
  · exact strContains_append_left _ _ _ (strContains_append_left _ _ _
      (strContains_append_left _ _ _ (strContains_append_right _ _ _
        (strContains_self _))))
  · exact strContains_append_left _ _ _ (strContains_append_right _ _ _
      (strContains_self _))

/-- C8: the resolver yields None for every provider when the credential is
empty; with a non-empty credential it yields a client exactly for "openai"
and "openrouter" and None for every other identifier, including the
reserved "anthropic" and "google" placeholder branches. -/
theorem c8_get_ai_client_spec (provider p api_key : String) (hk : api_key ≠ "") :
    get_ai_client p "" = none ∧
    (get_ai_client "openai" api_key).isSome = true ∧
    (get_ai_client "openrouter" api_key).isSome = true ∧
    get_ai_client "anthropic" api_key = none ∧
    get_ai_client "google" api_key = none ∧
    (provider ≠ "openai" → provider ≠ "openrouter" → get_ai_client provider api_key = none) := by
  refine ⟨by simp [get_ai_client], ?_, ?_, ?_, ?_, ?_⟩
  · simp [get_ai_client, hk]
  · simp [get_ai_client, hk]
  · simp [get_ai_client, hk]
  · simp [get_ai_client, hk]
  · intro p1 p2
    simp [get_ai_client, hk, p1, p2]

theorem c8_get_ai_client_spec_witness :
    ("sk-1" : String) ≠ "" ∧
    (get_ai_client "mistral" "" = none ∧
      (get_ai_client "openai" "sk-1").isSome = true ∧
      (get_ai_client "openrouter" "sk-1").isSome = true ∧
      get_ai_client "anthropic" "sk-1" = none ∧
      get_ai_client "google" "sk-1" = none ∧
      (("mistral" : String) ≠ "openai" → ("mistral" : String) ≠ "openrouter" →
        get_ai_client "mistral" "sk-1" = none)) :=
  ⟨by decide, c8_get_ai_client_spec "mistral" "mistral" "sk-1" (by decide)⟩

/-- C9: the three fallback generators are deterministic pure functions of
their inputs: two calls with identical input yield identical output, with
no randomness or external state on the fallback paths. -/
theorem c9_mock_fallbacks_deterministic (r1 r2 : ScriptRequest) (t1 t2 q1 q2 : String)
    (l1 l2 : Int) (hr : r1 = r2) (ht : t1 = t2) (hq : q1 = q2) (hl : l1 = l2) :
    generate_mock_script r1 = generate_mock_script r2 ∧
    generate_mock_variation t1 = generate_mock_variation t2 ∧
    generate_fallback_suggestions q1 l1 = generate_fallback_suggestions q2 l2 := by
  subst hr
  subst ht
  subst hq
  subst hl
  exact ⟨rfl, rfl, rfl⟩

theorem c9_mock_fallbacks_deterministic_witness :
    (({ topic := "t", refined_topic := "", hook := "h", style := "Casual" } : ScriptRequest)
          = { topic := "t", refined_topic := "", hook := "h", style := "Casual" } ∧
      ("shorter" : String) = "shorter" ∧ ("cook" : String) = "cook" ∧ (6 : Int) = 6) ∧
    (generate_mock_script { topic := "t", refined_topic := "", hook := "h", style := "Casual" }
          = generate_mock_script { topic := "t", refined_topic := "", hook := "h", style := "Casual" } ∧
      generate_mock_variation "shorter" = generate_mock_variation "shorter" ∧
      generate_fallback_suggestions "cook" 6 = generate_fallback_suggestions "cook" 6) :=
  ⟨⟨rfl, rfl, rfl, rfl⟩,
    c9_mock_fallbacks_deterministic
      { topic := "t", refined_topic := "", hook := "h", style := "Casual" }
      { topic := "t", refined_topic := "", hook := "h", style := "Casual" }
      "shorter" "shorter" "cook" "cook" 6 6 rfl rfl rfl rfl⟩

/-- C10: the mock script depends only on the style field; two requests that
agree on style produce identical mock scripts no matter how their topic,
refined topic, hook, provider, credential and model differ. -/
theorem c10_mock_script_style_only (r1 r2 : ScriptRequest) (h : r1.style = r2.style) :
    generate_mock_script r1 = generate_mock_script r2 := by
  unfold generate_mock_script
  rw [h]

theorem c10_mock_script_style_only_witness :
    ({ topic := "a", refined_topic := "b", hook := "c", style := "Formal",
        provider := "openrouter", api_key := "k1", model := "m1" } : ScriptRequest).style
        = ({ topic := "x", refined_topic := "y", hook := "z", style := "Formal" } : ScriptRequest).style ∧
    generate_mock_script
        { topic := "a", refined_topic := "b", hook := "c", style := "Formal",
          provider := "openrouter", api_key := "k1", model := "m1" }
        = generate_mock_script { topic := "x", refined_topic := "y", hook := "z", style := "Formal" } :=
  ⟨rfl,
    c10_mock_script_style_only
      { topic := "a", refined_topic := "b", hook := "c", style := "Formal",
        provider := "openrouter", api_key := "k1", model := "m1" }
      { topic := "x", refined_topic := "y", hook := "z", style := "Formal" } rfl⟩

end ScriptSpinner
